import Mathlib

set_option maxHeartbeats 1000000

/-!
Shallow embedding of the measurement-group configuration and orchestration
module of the sardana pool (sardana/pool/poolmeasurementgroup.py), together
with theorems settling the claims about it.

Mutable Python state is threaded explicitly; every raising statement of the
source becomes an Except error (or an explicit error field); collaborator
calls that only produce side effects outside the modelled state (logging,
event firing, the acquisition engine) are recorded as counters or flags.
-/

namespace Sardana

/-! ## PoolMeasurementGroup: acquisition state machine (prepare / start / stop / abort)

The orchestrator state.  `nb_starts` and `pending_starts` are Python ints
(`Int` here).  `prepares` and `runs` count delegations to the external
acquisition engine (`self.acquisition.prepare` / `self.acquisition.run`),
`warnings` counts deprecation warnings emitted through the logging sink,
and `synch_soft_stopped` / `group_stopped` / `group_aborted` record the
cancellation effects forwarded to the software synchronizer and to the base
`PoolGroupElement.stop` / `PoolGroupElement.abort`. -/

structure MGroup where
  nb_starts : Int
  pending_starts : Int
  aborted : Bool
  simulation_mode : Bool
  prepares : Nat
  runs : Nat
  warnings : Nat
  synch_soft_stopped : Bool
  group_stopped : Bool
  group_aborted : Bool
deriving DecidableEq

/-- `set_nb_starts` (with `propagate=0`, as used by the compatibility path of
`start_acquisition`): assigns `self._nb_starts`. -/
def set_nb_starts (s : MGroup) (v : Int) : MGroup := { s with nb_starts := v }

/-- `PoolMeasurementGroup.prepare`: sets `self._pending_starts = self.nb_starts`
and delegates to `self.acquisition.prepare` (counted in `prepares`). -/
def prepare (s : MGroup) : MGroup :=
  { s with pending_starts := s.nb_starts, prepares := s.prepares + 1 }

/-- `PoolMeasurementGroup.start_acquisition`: if `self._pending_starts == 0`,
warns about the deprecated start-without-prepare, sets `nb_starts` to 1
(`propagate=0`), runs `prepare`, and restores `nb_starts` (the `finally`
block); then clears `_aborted`, decrements `_pending_starts` and, unless in
simulation mode, delegates to `self.acquisition.run` (counted in `runs`). -/
def start_acquisition (s : MGroup) : MGroup :=
  let s1 :=
    if s.pending_starts = 0 then
      let saved := s.nb_starts
      let sA := { set_nb_starts s 1 with warnings := s.warnings + 1 }
      set_nb_starts (prepare sA) saved
    else s
  let s2 := { s1 with aborted := false, pending_starts := s1.pending_starts - 1 }
  if s2.simulation_mode then s2 else { s2 with runs := s2.runs + 1 }

/-- `PoolMeasurementGroup.stop`: zeroes `_pending_starts`, stops the software
synchronizer (`self.acquisition._synch._synch_soft.stop()`) and forwards to
`PoolGroupElement.stop`. -/
def stop (s : MGroup) : MGroup :=
  { s with pending_starts := 0, synch_soft_stopped := true, group_stopped := true }

/-- `PoolMeasurementGroup.abort`: zeroes `_pending_starts` and forwards to
`PoolGroupElement.abort`.  It does not touch the software synchronizer. -/
def abort (s : MGroup) : MGroup :=
  { s with pending_starts := 0, group_aborted := true }

/-- A concrete orchestrator state used by concrete evaluations below. -/
def mgroup0 : MGroup :=
  { nb_starts := 3, pending_starts := 0, aborted := false, simulation_mode := false,
    prepares := 0, runs := 0, warnings := 0, synch_soft_stopped := false,
    group_stopped := false, group_aborted := false }

/-! ## Latency time (`PoolMeasurementGroup.get_latency_time`) -/

/-- A pool controller as seen by the latency computation: whether it is
timerable, whether it is enabled in the current configuration, and the value
reported by `get_ctrl_par("latency_time")` (controllers report 0 when the
parameter is unset, so the reported value is what the field holds). -/
structure PoolCtrl where
  is_timerable : Bool
  enabled : Bool
  latency_time : Rat
deriving DecidableEq

/-- Modelled from the spec: `get_pool_controllers` resolves through the
acquisition action (`PoolAcquisition.get_pool_controllers`, defined outside
this module); per the spec the latency computation ranges over the enabled
timerable controllers of the group, so the acquisition action exposes the
controllers with enabled channels in the current configuration. -/
def get_pool_controllers (g : List PoolCtrl) : List PoolCtrl :=
  g.filter (fun c => c.enabled)

/-- Loop body of `get_latency_time`: skip non-timerable controllers, keep the
largest reported latency seen so far. -/
def latency_loop_step (latency_time : Rat) (pool_ctrl : PoolCtrl) : Rat :=
  if !pool_ctrl.is_timerable then latency_time
  else if pool_ctrl.latency_time > latency_time then pool_ctrl.latency_time
  else latency_time

/-- `PoolMeasurementGroup.get_latency_time`: starts from 0, skips
non-timerable controllers, and keeps the largest reported latency. -/
def get_latency_time (g : List PoolCtrl) : Rat :=
  (get_pool_controllers g).foldl latency_loop_step 0

/-! ## Integration time (`PoolMeasurementGroup.get_integration_time`) -/

/-- Modelled from the spec: `SynchronizationDescription.active_time` (defined
in poolsynchronization.py, outside this module).  Per the spec the
integration-time accessor requires exactly one active synchronization group:
with exactly one group the description exposes that group's active time as a
scalar float, otherwise the per-group list of active times. -/
def active_time (groups : List Rat) : Sum Rat (List Rat) :=
  match groups with
  | [t] => Sum.inl t
  | l => Sum.inr l

/-- `PoolMeasurementGroup.get_integration_time`: returns scalar active time
directly; raises on an empty group list and on more than one group.  A
non-scalar singleton list would fall through every branch and return `None`
(`Except.ok none`), faithfully kept here. -/
def get_integration_time (it : Sum Rat (List Rat)) : Except String (Option Rat) :=
  match it with
  | Sum.inl t => Except.ok (some t)
  | Sum.inr l =>
    if l.length = 0 then
      Except.error "The synchronization group has not been initialized"
    else if l.length > 1 then
      Except.error "There are more than one synchronization groups"
    else Except.ok none

/-! ## `PoolMeasurementGroup.add_user_element` -/

inductive ElementType where
  | Controller
  | CTExpChannel
  | ZeroDExpChannel
  | OneDExpChannel
  | TwoDExpChannel
  | TriggerGate
  | External
  | MeasurementGroup
deriving DecidableEq

/-- A pool element as used by `add_user_element` and
`build_measurement_configuration`: full name, element type and (for channels)
the owning controller's full name. -/
structure PGElement where
  full_name : String
  elem_type : ElementType
  ctrl_full_name : String
deriving DecidableEq

/-- Result of `PoolMeasurementGroup.add_user_element`: either the method
returned early (silently skipping the element, the group's element list
untouched), or it delegated to `PoolGroupElement.add_user_element` with the
given element and index. -/
inductive AddUserElementResult where
  | skipped
  | delegated (element : PGElement) (index : Option Nat)
deriving DecidableEq

/-- `PoolMeasurementGroup.add_user_element`: a TriggerGate already present
among the user elements is silently skipped; everything else is forwarded to
the base group behaviour. -/
def add_user_element (user_elements : List PGElement) (element : PGElement)
    (index : Option Nat) : AddUserElementResult :=
  if element ∈ user_elements then
    if element.elem_type = ElementType.TriggerGate then
      AddUserElementResult.skipped
    else AddUserElementResult.delegated element index
  else AddUserElementResult.delegated element index

/-- A trigger gate element used in concrete evaluations. -/
def tgElem : PGElement := ⟨"triggergate/tg/1", ElementType.TriggerGate, "controller/tgctrl/1"⟩

/-- A counter/timer channel element used in concrete evaluations. -/
def ctElem : PGElement := ⟨"expchan/ct/1", ElementType.CTExpChannel, "controller/ctctrl/1"⟩

/-! ## Configuration data model

Types used by `MeasurementConfiguration.set_configuration_from_user` and the
`ConfigurationItem` hierarchy. -/

inductive AcqSynchType where
  | Trigger
  | Gate
  | Start
deriving DecidableEq

inductive AcqSynch where
  | SoftwareTrigger
  | SoftwareGate
  | SoftwareStart
  | HardwareTrigger
  | HardwareGate
  | HardwareStart
deriving DecidableEq

/-- Modelled from the spec: `AcqSynch.from_synch_type` lives in pooldefs.py
(outside this module); per the spec the six-way variant is the cross product
of the triggering source (software iff the controller uses the software
synchronizer) and the {Trigger, Gate, Start} timing semantics. -/
def AcqSynch.from_synch_type (software : Bool) (synch_type : AcqSynchType) : AcqSynch :=
  match software, synch_type with
  | true, AcqSynchType.Trigger => AcqSynch.SoftwareTrigger
  | true, AcqSynchType.Gate => AcqSynch.SoftwareGate
  | true, AcqSynchType.Start => AcqSynch.SoftwareStart
  | false, AcqSynchType.Trigger => AcqSynch.HardwareTrigger
  | false, AcqSynchType.Gate => AcqSynch.HardwareGate
  | false, AcqSynchType.Start => AcqSynch.HardwareStart

inductive PlotType where
  | No
  | Spectrum
  | Image
deriving DecidableEq

inductive Normalization where
  | No
  | Avg
  | Integral
deriving DecidableEq

inductive DataFormat where
  | Scalar
  | OneD
  | TwoD
deriving DecidableEq

inductive DataType where
  | Double
  | Long
deriving DecidableEq

/-- `_get_ndim`: dimensionality from the introspected data format. -/
def get_ndim (dformat : DataFormat) : Nat :=
  match dformat with
  | DataFormat.Scalar => 0
  | DataFormat.OneD => 1
  | DataFormat.TwoD => 2

/-- `_get_type`: only the Double data type is implemented. -/
def get_type (dtype : DataType) : Except String String :=
  match dtype with
  | DataType.Double => Except.ok "float"
  | _ => Except.error "data type is not implemented"

/-- `_get_shape`: the introspected max dimension size, or an empty tuple when
the attribute is missing. -/
def get_shape (maxdimsize : Option (List Nat)) : List Nat :=
  maxdimsize.getD []

/-- The channel-configuration attribute set after `_fill_channel_data`: every
key of the channel dictionary is present (the `_controller_name` key only for
non-external channels). -/
structure ChDataOut where
  index : Nat
  name : String
  full_name : String
  source : String
  enabled : Bool
  label : String
  ndim : Nat
  output : Bool
  plot_type : PlotType
  plot_axes : List String
  conditioning : String
  normalization : Normalization
  data_type : String
  data_units : String
  nexus_path : String
  shape : List Nat
  controller_name : Option String
deriving DecidableEq

/-- A channel entry of the user-supplied configuration before
`_fill_channel_data`: every key optional except that `index` must already be
set (asserted by the source). -/
structure ChDataIn where
  index : Option Nat
  name : Option String
  full_name : Option String
  source : Option String
  enabled : Option Bool
  label : Option String
  output : Option Bool
  plot_type : Option PlotType
  plot_axes : Option (List String)
  conditioning : Option String
  normalization : Option Normalization
  data_type : Option String
  data_units : Option String
  nexus_path : Option String
  shape : Option (List Nat)
  controller_name : Option String
deriving DecidableEq

/-- A channel entry with no keys besides those the builder seeds. -/
def emptyChDataIn : ChDataIn :=
  { index := none, name := none, full_name := none, source := none, enabled := none,
    label := none, output := none, plot_type := none, plot_axes := none,
    conditioning := none, normalization := none, data_type := none, data_units := none,
    nexus_path := none, shape := none, controller_name := none }

/-- The element wrapped by a `ChannelConfiguration`: either a pool channel
(with its numeric id) or an externally-addressed object. -/
inductive ChanElem where
  | pool (full_name : String) (id : Nat)
  | external (full_name : String)
deriving DecidableEq

/-- `ChannelConfiguration`: wraps an element with the filled channel
attributes; `controller` is the back-reference to the owning controller item
(stored by its full name). -/
structure ChannelConf where
  elem : ChanElem
  controller : String
  data : ChDataOut
deriving DecidableEq

/-- Attribute lookup on a `ChannelConfiguration` finds the filled dictionary
keys first, so `index`, `full_name`, `name` and `enabled` come from the
attribute set. -/
def ChannelConf.index (c : ChannelConf) : Nat := c.data.index

def ChannelConf.full_name (c : ChannelConf) : String := c.data.full_name

def ChannelConf.name (c : ChannelConf) : String := c.data.name

def ChannelConf.enabled (c : ChannelConf) : Bool := c.data.enabled

/-- The value held by a timer/monitor role slot after `_update_master`:
either an elected channel item or a still-unresolved full-name string. -/
inductive MasterRef where
  | chan (c : ChannelConf)
  | name (s : String)
deriving DecidableEq

/-- `channel.index > idx` where `idx` starts as float +inf (`none`). -/
def gt_idx (n : Nat) : Option Nat → Bool
  | none => false
  | some i => n > i

/-- Loop body of `_update_master` when the role is unset: skip channels with
index above the running minimum, otherwise take the channel (so a later
channel with an equal index replaces an earlier one). -/
def elect_step (acc : Option MasterRef × Option Nat) (channel : ChannelConf) :
    Option MasterRef × Option Nat :=
  if gt_idx channel.index acc.2 then acc
  else (some (MasterRef.chan channel), some channel.index)

/-- Loop body of `_update_master` when the role holds a full-name string:
replace the string by a matching enabled channel; once replaced, a channel
object never compares equal to a full name, so later iterations keep it. -/
def explicit_step (master : MasterRef) (channel : ChannelConf) : MasterRef :=
  match master with
  | MasterRef.name s => if channel.full_name = s then MasterRef.chan channel else master
  | MasterRef.chan _ => master

/-- `TimerableControllerConfiguration._update_master role`: the role attribute
(`getattr(self, role, None)`) is an explicit full-name string or unset. -/
def update_master (role_value : Option String) (channels_enabled : List ChannelConf) :
    Option MasterRef :=
  match role_value with
  | none => (channels_enabled.foldl elect_step (none, none)).1
  | some s => some (channels_enabled.foldl explicit_step (MasterRef.name s))

/-- Channel attribute set used in concrete election examples. -/
def chdata_at (nm : String) (idx : Nat) (en : Bool) : ChDataOut :=
  { index := idx, name := nm, full_name := nm, source := nm, enabled := en, label := nm,
    ndim := 0, output := true, plot_type := PlotType.No, plot_axes := [],
    conditioning := "", normalization := Normalization.No, data_type := "float",
    data_units := "", nexus_path := "", shape := [],
    controller_name := some "controller/ctctrl/1" }

/-- Channel item used in concrete election examples. -/
def chconf (nm : String) (idx : Nat) (en : Bool) : ChannelConf :=
  { elem := ChanElem.pool nm 0, controller := "controller/ctctrl/1",
    data := chdata_at nm idx en }

def chA : ChannelConf := chconf "expchan/ctctrl/a" 2 true

def chB : ChannelConf := chconf "expchan/ctctrl/b" 2 true

def ch5 : ChannelConf := chconf "expchan/ctctrl/c" 5 true

/-- Invariant of the unset-role election fold: after processing the channels
`p`, either nothing was processed and the accumulator is still the initial
one, or the accumulator holds a processed channel of minimal index that is
the last channel of `p` attaining that index. -/
def ElectInv (p : List ChannelConf) (acc : Option MasterRef × Option Nat) : Prop :=
  (p = [] ∧ acc = (none, none)) ∨
  (∃ c : ChannelConf, acc = (some (MasterRef.chan c), some c.index) ∧ c ∈ p
    ∧ (∀ ch ∈ p, c.index ≤ ch.index)
    ∧ (p.filter (fun ch => ch.index == c.index)).getLast? = some c)

/-! ## `build_measurement_configuration`

Python dictionaries are modelled as association lists with the Python
assignment semantics: updating an existing key keeps its position and
replaces the value, a new key is appended at the end (insertion order is
preserved, as Python dicts do). -/

def dictGet {κ α : Type} [DecidableEq κ] (d : List (κ × α)) (k : κ) : Option α :=
  match d with
  | [] => none
  | (k2, v) :: rest => if k2 = k then some v else dictGet rest k

def dictInsert {κ α : Type} [DecidableEq κ] (d : List (κ × α)) (k : κ) (v : α) :
    List (κ × α) :=
  match d with
  | [] => [(k, v)]
  | (k2, v2) :: rest => if k2 = k then (k, v) :: rest else (k2, v2) :: dictInsert rest k v

/-- A controller entry of the minimal configuration: the `channels` map from
channel full name to the `index` value of its channel entry. -/
structure BMCtrlData where
  channels : List (String × Nat)
deriving DecidableEq

/-- The minimal configuration skeleton: the `controllers` map. -/
structure BMUserConfig where
  controllers : List (String × BMCtrlData)
deriving DecidableEq

/-- The existing channels map of a controller entry (a fresh empty one when
the controller has no entry yet, as the source creates `ctrl_data` then). -/
def chans_of (controllers : List (String × BMCtrlData)) (cn : String) :
    List (String × Nat) :=
  match dictGet controllers cn with
  | none => []
  | some ctrl_data => ctrl_data.channels

/-- Loop body of `build_measurement_configuration`: externally-addressed
elements are collected aside with their position; any other element is
registered under its owning controller's full name with its position as
`index`. -/
def bmc_step (acc : List (String × BMCtrlData) × List (Nat × PGElement))
    (p : Nat × PGElement) : List (String × BMCtrlData) × List (Nat × PGElement) :=
  let controllers := acc.1
  let external_user_elements := acc.2
  let index := p.1
  let element := p.2
  if element.elem_type = ElementType.External then
    (controllers, external_user_elements ++ [(index, element)])
  else
    (dictInsert controllers element.ctrl_full_name
      ⟨dictInsert (chans_of controllers element.ctrl_full_name) element.full_name index⟩,
     external_user_elements)

/-- The channels map of the synthetic external pseudo-controller. -/
def tango_channels (externals : List (Nat × PGElement)) : List (String × Nat) :=
  externals.foldl (fun channels p => dictInsert channels p.2.full_name p.1) []

/-- `build_measurement_configuration`: scan the ordered member list, group
non-external members under their controller with their position as index,
and afterwards synthesize the `__tango__` pseudo-controller bucket when any
external member was collected. -/
def build_measurement_configuration (user_elements : List PGElement) : BMUserConfig :=
  let r := user_elements.enum.foldl bmc_step ([], [])
  let controllers := r.1
  let external_user_elements := r.2
  if external_user_elements.length > 0 then
    ⟨dictInsert controllers "__tango__" ⟨tango_channels external_user_elements⟩⟩
  else ⟨controllers⟩

/-- The index recorded for channel `ch` of controller `cn` in the minimal
configuration. -/
def ctrl_chan_index (controllers : List (String × BMCtrlData)) (cn ch : String) :
    Option Nat :=
  match dictGet controllers cn with
  | none => none
  | some cd => dictGet cd.channels ch

/-- The external members of `l` paired with their positions (counting from
`n`), in order. -/
def ext_list (n : Nat) : List PGElement → List (Nat × PGElement)
  | [] => []
  | a :: l =>
    (if a.elem_type = ElementType.External then [(n, a)] else []) ++ ext_list (n + 1) l

/-! ## `MeasurementConfiguration.set_configuration_from_user`

The full normalization pipeline.  The user-supplied configuration, the pool
element registry and the parent group are explicit inputs; the internal model
of `MeasurementConfiguration` is the threaded state. -/

/-- The value found under the `synchronizer` key of a controller entry:
absent (defaulting to software), an explicit `None`, or a string. -/
inductive SynchronizerField where
  | absent
  | null
  | str (s : String)
deriving DecidableEq

/-- The payload of one controller entry (after the legacy `units` unwrap). -/
structure CtrlDataCore where
  channels : List (String × ChDataIn)
  synchronizer : SynchronizerField
  synchronization : Option AcqSynchType
  trigger_type : Option AcqSynchType
deriving DecidableEq

/-- One controller entry of the user-supplied configuration: a legacy entry
nests the payload under `units` / `0`, a modern one holds it directly. -/
structure CtrlData where
  units : Option CtrlDataCore
  core : CtrlDataCore
deriving DecidableEq

/-- `if units in ctrl_data: ctrl_data = ctrl_data[units][0]`. -/
def unwrap_units (cd : CtrlData) : CtrlDataCore :=
  cd.units.getD cd.core

/-- The user-supplied configuration mapping. -/
structure Cfg where
  label : Option String
  description : Option String
  timer : Option String
  monitor : Option String
  controllers : List (String × CtrlData)
deriving DecidableEq

/-- Introspection data of a pool experimental channel. -/
structure PoolChanInfo where
  name : String
  id : Nat
  source : String
  dformat : DataFormat
  dtype : DataType
  maxdimsize : Option (List Nat)
  ctrl_full_name : String
deriving DecidableEq

/-- A pool registry element: a controller (with its timerable flag and main
controller type), an experimental channel, or a trigger/gate element. -/
inductive PoolElem where
  | ctrl (is_timerable : Bool) (main_type : ElementType)
  | chan (info : PoolChanInfo)
  | tg (id : Nat) (ctrl_full_name : String)
deriving DecidableEq

/-- Modelled from the spec: data for an externally-addressed channel, as
produced by the external attribute-name validator and the
`PoolExternalObject` constructor (both outside this module): display name,
source and the attribute configuration (dimensionality), when available. -/
structure ExtInfo where
  name : String
  source : String
  config_ndim : Option Nat
deriving DecidableEq

/-- The element registries the normalization consults. -/
structure Pool where
  elems : List (String × PoolElem)
  externals : List (String × ExtInfo)
deriving DecidableEq

/-- `pool.get_element_by_full_name`: raises on an unknown name. -/
def get_element_by_full_name (pool : Pool) (nm : String) : Except String PoolElem :=
  match dictGet pool.elems nm with
  | some e => Except.ok e
  | none => Except.error "KeyError: no element with the given full name"

/-- Modelled from the spec: `_to_fqdn` resolves a name through the external
naming collaborator; resolution is idempotent and on canonical (fully
qualified) names it is the identity. The embedding works with canonical
names. -/
def to_fqdn_name (nm : String) : String := nm

/-- `SynchronizerConfiguration`: wraps a synchronizer element;
default-disabled. -/
structure SynchConf where
  elem_full_name : String
  elem_id : Nat
  enabled : Bool
deriving DecidableEq

/-- `ControllerConfiguration` for a synchronizer controller. -/
structure SynchCtrlConf where
  ctrl_full_name : String
  channels : List SynchConf
  enabled : Bool
  channels_enabled : List SynchConf
  channels_disabled : List SynchConf
deriving DecidableEq

/-- A fresh `ControllerConfiguration` (disabled, no channels). -/
def SynchCtrlConf.new (cn : String) : SynchCtrlConf := ⟨cn, [], false, [], []⟩

/-- `ControllerConfiguration.add_channel` (for synchronizer items). -/
def synch_add_channel (c : SynchCtrlConf) (ch : SynchConf) : SynchCtrlConf :=
  { c with
    channels := c.channels ++ [ch],
    enabled := if ch.enabled then true else c.enabled,
    channels_enabled := if ch.enabled then c.channels_enabled ++ [ch] else c.channels_enabled,
    channels_disabled := if ch.enabled then c.channels_disabled else c.channels_disabled ++ [ch] }

/-- `ControllerConfiguration.update_state`: recompute the enabled flag and
the enabled/disabled caches from the aggregated channels. -/
def synch_update_state (c : SynchCtrlConf) : SynchCtrlConf :=
  { c with
    enabled := c.channels.any (fun ch => ch.enabled),
    channels_enabled := c.channels.filter (fun ch => ch.enabled),
    channels_disabled := c.channels.filter (fun ch => !ch.enabled) }

/-- The value stored under the `synchronizer` key of `ctrl_conf`: the string
software, or a reference to the `SynchronizerConfiguration` item (identified
by its element full name; the enabled flag lives in the synchronizer
controller store). -/
inductive CtrlSynchRef where
  | software
  | conf (elem_full_name : String)
deriving DecidableEq

/-- `ControllerConfiguration` for a measurement (timerable / 0D / other pool)
controller, together with its `ctrl_conf` attributes. -/
structure CtrlConfBase where
  ctrl_full_name : String
  synchronizer : CtrlSynchRef
  synchronization : AcqSynchType
  channels : List ChannelConf
  channels_enabled : List ChannelConf
  channels_disabled : List ChannelConf
  enabled : Bool
deriving DecidableEq

/-- `ControllerConfiguration.add_channel`. -/
def ctrl_add_channel (c : CtrlConfBase) (ch : ChannelConf) : CtrlConfBase :=
  { c with
    channels := c.channels ++ [ch],
    enabled := if ch.enabled then true else c.enabled,
    channels_enabled := if ch.enabled then c.channels_enabled ++ [ch] else c.channels_enabled,
    channels_disabled := if ch.enabled then c.channels_disabled else c.channels_disabled ++ [ch] }

/-- `TimerableControllerConfiguration`: adds the timer and monitor role
slots. The `ctrl_conf` attributes never contain a `timer`/`monitor` key (the
source only stores `synchronizer` and `synchronization` there) and attribute
delegation to the wrapped pool controller yields no such attribute either, so
both slots start unset. -/
structure TimerableCtrlConf where
  base : CtrlConfBase
  timer : Option MasterRef
  monitor : Option MasterRef
deriving DecidableEq

/-- `ExternalControllerConfiguration`: a pseudo-controller wrapping itself,
identified by the external controller name. -/
structure ExtCtrlConf where
  full_name : String
  channels : List ChannelConf
  channels_enabled : List ChannelConf
  channels_disabled : List ChannelConf
  enabled : Bool
deriving DecidableEq

/-- `ControllerConfiguration.add_channel` (external pseudo-controller). -/
def ext_add_channel (c : ExtCtrlConf) (ch : ChannelConf) : ExtCtrlConf :=
  { c with
    channels := c.channels ++ [ch],
    enabled := if ch.enabled then true else c.enabled,
    channels_enabled := if ch.enabled then c.channels_enabled ++ [ch] else c.channels_enabled,
    channels_disabled := if ch.enabled then c.channels_disabled else c.channels_disabled ++ [ch] }

/-- The `_timerable_ctrls` mapping, keyed by the six `AcqSynch` variants. -/
structure TimerableBuckets where
  hw_gate : List TimerableCtrlConf
  hw_start : List TimerableCtrlConf
  hw_trigger : List TimerableCtrlConf
  sw_start : List TimerableCtrlConf
  sw_trigger : List TimerableCtrlConf
  sw_gate : List TimerableCtrlConf
deriving DecidableEq

def TimerableBuckets.empty : TimerableBuckets := ⟨[], [], [], [], [], []⟩

def buckets_append (b : TimerableBuckets) (a : AcqSynch) (c : TimerableCtrlConf) :
    TimerableBuckets :=
  match a with
  | AcqSynch.HardwareGate => { b with hw_gate := b.hw_gate ++ [c] }
  | AcqSynch.HardwareStart => { b with hw_start := b.hw_start ++ [c] }
  | AcqSynch.HardwareTrigger => { b with hw_trigger := b.hw_trigger ++ [c] }
  | AcqSynch.SoftwareStart => { b with sw_start := b.sw_start ++ [c] }
  | AcqSynch.SoftwareTrigger => { b with sw_trigger := b.sw_trigger ++ [c] }
  | AcqSynch.SoftwareGate => { b with sw_gate := b.sw_gate ++ [c] }

/-- One controller entry of the round-trippable user-configuration snapshot
(note the absence of any `units` nesting: the legacy shape is read but never
written). -/
structure UserConfigCtrl where
  synchronizer : String
  synchronization : AcqSynchType
  channels : List (String × ChDataOut)
  timer : Option String
  monitor : Option String
deriving DecidableEq

/-- The user-configuration snapshot. -/
structure UserConfig where
  label : String
  description : String
  timer : String
  monitor : String
  controllers : List (String × UserConfigCtrl)
deriving DecidableEq

/-- An entry of the membership-id list pushed to the parent group: a pool
element id or an external full name. -/
inductive UserElemId where
  | pid (id : Nat)
  | ext (full_name : String)
deriving DecidableEq

/-- The internal model of `MeasurementConfiguration`.  The synchronizer
controllers are kept as the append-order list of controller names (the
source list may hold the same controller object twice) plus a per-name store
of the aliased objects. -/
structure MeasConfig where
  label : Option String
  description : Option String
  timerable_ctrls : TimerableBuckets
  zerod_ctrls : List CtrlConfBase
  synch_ctrls_order : List String
  synch_ctrls_store : List (String × SynchCtrlConf)
  other_ctrls : List ExtCtrlConf
  master_timer_sw : Option ChannelConf
  master_monitor_sw : Option ChannelConf
  master_timer_sw_start : Option ChannelConf
  master_monitor_sw_start : Option ChannelConf
  user_confg : Option UserConfig
  channel_acq_synch : List (String × AcqSynch)
  ctrl_acq_synch : List (String × AcqSynch)
  changed : Bool
deriving DecidableEq

/-- The state right after `MeasurementConfiguration.__init__`. -/
def MeasConfig.init : MeasConfig :=
  { label := none, description := none, timerable_ctrls := TimerableBuckets.empty,
    zerod_ctrls := [], synch_ctrls_order := [], synch_ctrls_store := [],
    other_ctrls := [], master_timer_sw := none, master_monitor_sw := none,
    master_timer_sw_start := none, master_monitor_sw_start := none,
    user_confg := none, channel_acq_synch := [], ctrl_acq_synch := [],
    changed := false }

/-- `get_master_timer_software`. -/
def get_master_timer_software (c : MeasConfig) : Option ChannelConf :=
  c.master_timer_sw

/-- `get_master_monitor_software`. -/
def get_master_monitor_software (c : MeasConfig) : Option ChannelConf :=
  c.master_monitor_sw

/-- `get_master_timer_software_start`: the source returns
`self._master_monitor_sw_start` here. -/
def get_master_timer_software_start (c : MeasConfig) : Option ChannelConf :=
  c.master_monitor_sw_start

/-- `get_master_monitor_software_start`: the source returns
`self._master_timer_sw_start` here. -/
def get_master_monitor_software_start (c : MeasConfig) : Option ChannelConf :=
  c.master_timer_sw_start

/-- `_fill_channel_data` for a pool channel: introspect the value attribute
(raising on a non-Double data type), require the `index` key, and default
every other key from the live element. -/
def fill_channel_data_pool (info : PoolChanInfo) (elem_full_name : String)
    (d : ChDataIn) : Except String ChDataOut := do
  let ndim := get_ndim info.dformat
  let data_type ← get_type info.dtype
  let shape := get_shape info.maxdimsize
  let index ← match d.index with
    | some i => Except.ok i
    | none => Except.error "KeyError: index"
  let nm := d.name.getD info.name
  Except.ok {
    index := index,
    name := nm,
    full_name := d.full_name.getD elem_full_name,
    source := d.source.getD info.source,
    enabled := d.enabled.getD true,
    label := d.label.getD nm,
    ndim := ndim,
    output := d.output.getD true,
    plot_type := d.plot_type.getD PlotType.No,
    plot_axes := d.plot_axes.getD [],
    conditioning := d.conditioning.getD "",
    normalization := d.normalization.getD Normalization.No,
    data_type := d.data_type.getD data_type,
    data_units := d.data_units.getD "",
    nexus_path := d.nexus_path.getD "",
    shape := d.shape.getD shape,
    controller_name := some (d.controller_name.getD info.ctrl_full_name) }

/-- `_fill_channel_data` for an external channel: the `index` key is required
first; when the external attribute reports no configuration the local
`data_type` variable is never assigned and its later read raises.  The
`_controller_name` key is not filled for external channels. -/
def fill_channel_data_external (info : ExtInfo) (elem_full_name : String)
    (d : ChDataIn) : Except String ChDataOut := do
  let index ← match d.index with
    | some i => Except.ok i
    | none => Except.error "KeyError: index"
  match info.config_ndim with
  | none => Except.error "NameError: local variable data_type referenced before assignment"
  | some ndim =>
    let nm := d.name.getD info.name
    Except.ok {
      index := index,
      name := nm,
      full_name := d.full_name.getD elem_full_name,
      source := d.source.getD info.source,
      enabled := d.enabled.getD true,
      label := d.label.getD nm,
      ndim := ndim,
      output := d.output.getD true,
      plot_type := d.plot_type.getD PlotType.No,
      plot_axes := d.plot_axes.getD [],
      conditioning := d.conditioning.getD "",
      normalization := d.normalization.getD Normalization.No,
      data_type := d.data_type.getD "float64",
      data_units := d.data_units.getD "",
      nexus_path := d.nexus_path.getD "",
      shape := d.shape.getD [],
      controller_name := d.controller_name }

/-- `ctrl_name.startswith` of two underscores: the marker of an
externally-addressed pseudo-controller name. -/
def name_is_external (s : String) : Bool :=
  match s.data with
  | c1 :: c2 :: _ => c1 == Char.ofNat 95 && c2 == Char.ofNat 95
  | _ => false

/-- Result of the synchronizer-resolution block of one controller entry:
the `ctrl_conf` synchronizer value, the snapshot synchronizer string, the
created `SynchronizerConfiguration` (with its controller name) when the
synchronizer is not software, the updated synchronizer-controller order and
store, and the value of `synchronizer == software` as computed afterwards
(an explicit `None` under the key is treated as software but compares
unequal to the string). -/
structure SynchResolution where
  ctrl_ref : CtrlSynchRef
  snapshot_str : String
  created : Option (String × SynchConf)
  order : List String
  store : List (String × SynchCtrlConf)
  is_software : Bool
deriving DecidableEq

/-- The synchronizer-resolution block (including the reuse of an existing
`ControllerConfiguration` for the synchronizer controller, and the
unconditional append to the synchronizer-controller list). -/
def resolve_synchronizer (pool : Pool) (to_fqdn : Bool) (order : List String)
    (store : List (String × SynchCtrlConf)) (sf : SynchronizerField) :
    Except String SynchResolution :=
  match sf with
  | SynchronizerField.absent =>
    Except.ok ⟨CtrlSynchRef.software, "software", none, order, store, true⟩
  | SynchronizerField.null =>
    Except.ok ⟨CtrlSynchRef.software, "software", none, order, store, false⟩
  | SynchronizerField.str s =>
    if s = "software" then
      Except.ok ⟨CtrlSynchRef.software, "software", none, order, store, true⟩
    else do
      let s2 := if to_fqdn then to_fqdn_name s else s
      let pe ← get_element_by_full_name pool s2
      match pe with
      | PoolElem.tg id ctrl_nm =>
        let conf_synch : SynchConf := ⟨s2, id, false⟩
        let base := match dictGet store ctrl_nm with
          | some c => c
          | none => SynchCtrlConf.new ctrl_nm
        Except.ok ⟨CtrlSynchRef.conf s2, s2, some (ctrl_nm, conf_synch),
          order ++ [ctrl_nm], dictInsert store ctrl_nm (synch_add_channel base conf_synch),
          false⟩
      | PoolElem.chan info =>
        let conf_synch : SynchConf := ⟨s2, info.id, false⟩
        let base := match dictGet store info.ctrl_full_name with
          | some c => c
          | none => SynchCtrlConf.new info.ctrl_full_name
        Except.ok ⟨CtrlSynchRef.conf s2, s2, some (info.ctrl_full_name, conf_synch),
          order ++ [info.ctrl_full_name],
          dictInsert store info.ctrl_full_name (synch_add_channel base conf_synch),
          false⟩
      | PoolElem.ctrl _ _ =>
        Except.error "AttributeError: controller element has no controller attribute"

/-- The synchronization-type resolution: the `synchronization` key, falling
back to the deprecated `trigger_type` key (signalling the deprecation
warning), defaulting to Trigger. -/
def resolve_synchronization (d : CtrlDataCore) : AcqSynchType × Bool :=
  match d.synchronization with
  | some s => (s, false)
  | none =>
    match d.trigger_type with
    | some s => (s, true)
    | none => (AcqSynchType.Trigger, false)

/-- The element full name of a channel item. -/
def elem_full_name : ChanElem → String
  | ChanElem.pool fn _ => fn
  | ChanElem.external fn => fn

/-- Resolve and fill one channel entry: an external channel is constructed
through the external attribute registry, a pool channel by name lookup.
Returns the snapshot key (the possibly canonicalized channel name) and the
built `ChannelConfiguration`. -/
def process_channel (pool : Pool) (external : Bool) (ctrl_name : String)
    (to_fqdn : Bool) (entry : String × ChDataIn) :
    Except String (String × ChannelConf) :=
  if external then
    match dictGet pool.externals (entry.2.full_name.getD entry.1) with
    | none => Except.error "TypeError: invalid external attribute name"
    | some info => do
      let full_name := entry.2.full_name.getD entry.1
      let dout ← fill_channel_data_external info full_name entry.2
      Except.ok (entry.1, ⟨ChanElem.external full_name, ctrl_name, dout⟩)
  else do
    let ch_name2 := if to_fqdn then to_fqdn_name entry.1 else entry.1
    let pe ← get_element_by_full_name pool ch_name2
    match pe with
    | PoolElem.chan info => do
      let dout ← fill_channel_data_pool info ch_name2 entry.2
      Except.ok (ch_name2, ⟨ChanElem.pool ch_name2 info.id, ctrl_name, dout⟩)
    | _ => Except.error "AttributeError: element is not an experimental channel"

/-- The per-channel-loop accumulator: the snapshot channel map of the current
controller, the channel items in attachment order, and the cross-controller
maps threaded through the loop. -/
structure ChanAcc where
  snapshot : List (String × ChDataOut)
  items : List ChannelConf
  user_elem_ids : List (Nat × UserElemId)
  channel_acq_synch : List (String × AcqSynch)
  ctrl_enabled : Bool
deriving DecidableEq

/-- The per-channel bookkeeping after a channel item is built: snapshot
entry, item attachment, membership id for an enabled channel (the element id
for a pool channel, the full name for an external one), the channel→variant
map when the controller has an acquisition-synchronization variant, and the
controller-enabled flag. -/
def chan_step (acq_synch : Option AcqSynch) (acc : ChanAcc) (key : String)
    (item : ChannelConf) : ChanAcc :=
  { snapshot := dictInsert acc.snapshot key item.data,
    items := acc.items ++ [item],
    user_elem_ids :=
      if item.enabled then
        dictInsert acc.user_elem_ids item.index
          (match item.elem with
           | ChanElem.pool _ id => UserElemId.pid id
           | ChanElem.external fn => UserElemId.ext fn)
      else acc.user_elem_ids,
    channel_acq_synch :=
      match acq_synch with
      | some a => dictInsert acc.channel_acq_synch (elem_full_name item.elem) a
      | none => acc.channel_acq_synch,
    ctrl_enabled := if item.enabled then true else acc.ctrl_enabled }

/-- The channel loop of one controller entry. -/
def process_channels (pool : Pool) (external : Bool) (ctrl_name : String)
    (to_fqdn : Bool) (acq_synch : Option AcqSynch) :
    List (String × ChDataIn) → ChanAcc → Except String ChanAcc
  | [], acc => Except.ok acc
  | entry :: rest, acc => do
    let r ← process_channel pool external ctrl_name to_fqdn entry
    process_channels pool external ctrl_name to_fqdn acq_synch rest
      (chan_step acq_synch acc r.1 r.2)

/-- `channel.index < running_minimum` where the minimum starts at +inf. -/
def lt_idx (n : Nat) : Option Nat → Bool
  | none => true
  | some i => decide (n < i)

/-- Accessing `.enabled` on a role slot: raises unless the slot holds a
channel item. -/
def master_enabled : Option MasterRef → Except String Bool
  | some (MasterRef.chan c) => Except.ok c.enabled
  | some (MasterRef.name _) => Except.error "AttributeError: str has no attribute enabled"
  | none => Except.error "AttributeError: NoneType has no attribute enabled"

/-- Accessing `.full_name` on a role slot: raises unless the slot holds a
channel item (a timerable controller whose election found no enabled channel
fails here when its timer name is written to the snapshot). -/
def master_channel : Option MasterRef → Except String ChannelConf
  | some (MasterRef.chan c) => Except.ok c
  | some (MasterRef.name _) => Except.error "AttributeError: str has no attribute full_name"
  | none => Except.error "AttributeError: NoneType has no attribute full_name"

/-- `TimerableControllerConfiguration.validate`: an enabled controller whose
timer and monitor are both disabled is rejected. -/
def validate_timerable (t : TimerableCtrlConf) : Except String Unit := do
  if t.base.enabled then
    let te ← master_enabled t.timer
    if !te then
      let me ← master_enabled t.monitor
      if !me then
        Except.error "ValueError: the channel used as timer and the channel used as monitor are disabled. One of them must be enabled"
      else Except.ok ()
    else Except.ok ()
  else Except.ok ()

/-- Setting `conf_synch.enabled = ctrl_enabled`: the synchronizer item that
was just appended is the last channel of its controller entry.  (The cached
enabled/disabled sub-lists still hold the pre-mutation classification, as in
the source, and are rebuilt by `update_state` before any read.) -/
def set_last_enabled : List SynchConf → Bool → List SynchConf
  | [], _ => []
  | [ch], b => [{ ch with enabled := b }]
  | ch :: rest, b => ch :: set_last_enabled rest b

def set_last_synch_enabled (store : List (String × SynchCtrlConf)) (cn : String)
    (b : Bool) : List (String × SynchCtrlConf) :=
  match dictGet store cn with
  | none => store
  | some c => dictInsert store cn { c with channels := set_last_enabled c.channels b }

/-- The cross-controller accumulator of the normalization loop. -/
structure NormAcc where
  user_config_ctrls : List (String × UserConfigCtrl)
  timerable_ctrls : TimerableBuckets
  zerod_ctrls : List CtrlConfBase
  synch_order : List String
  synch_store : List (String × SynchCtrlConf)
  other_ctrls : List ExtCtrlConf
  master_timer_sw : Option ChannelConf
  master_timer_idx_sw : Option Nat
  master_monitor_sw : Option ChannelConf
  master_monitor_idx_sw : Option Nat
  master_timer_sw_start : Option ChannelConf
  master_timer_idx_sw_start : Option Nat
  master_monitor_sw_start : Option ChannelConf
  master_monitor_idx_sw_start : Option Nat
  user_elem_ids : List (Nat × UserElemId)
  channel_acq_synch : List (String × AcqSynch)
  ctrl_acq_synch : List (String × AcqSynch)
deriving DecidableEq

def NormAcc.init : NormAcc :=
  { user_config_ctrls := [], timerable_ctrls := TimerableBuckets.empty,
    zerod_ctrls := [], synch_order := [], synch_store := [], other_ctrls := [],
    master_timer_sw := none, master_timer_idx_sw := none,
    master_monitor_sw := none, master_monitor_idx_sw := none,
    master_timer_sw_start := none, master_timer_idx_sw_start := none,
    master_monitor_sw_start := none, master_monitor_idx_sw_start := none,
    user_elem_ids := [], channel_acq_synch := [], ctrl_acq_synch := [] }

/-- The per-domain master election updates of the classification step. -/
def update_masters_sw (acc : NormAcc) (t m : ChannelConf) : NormAcc :=
  let acc1 :=
    if lt_idx t.index acc.master_timer_idx_sw then
      { acc with master_timer_sw := some t, master_timer_idx_sw := some t.index }
    else acc
  if lt_idx m.index acc1.master_monitor_idx_sw then
    { acc1 with master_monitor_sw := some m, master_monitor_idx_sw := some m.index }
  else acc1

def update_masters_sw_start (acc : NormAcc) (t m : ChannelConf) : NormAcc :=
  let acc1 :=
    if lt_idx t.index acc.master_timer_idx_sw_start then
      { acc with master_timer_sw_start := some t, master_timer_idx_sw_start := some t.index }
    else acc
  if lt_idx m.index acc1.master_monitor_idx_sw_start then
    { acc1 with
      master_monitor_sw_start := some m
      master_monitor_idx_sw_start := some m.index }
  else acc1

/-- The body of the controller loop after the legacy unwrap, the
empty-channels check and the synchronization-type resolution: name/element
resolution, snapshot entry, synchronizer resolution, classification, the
channel loop, timer/monitor election, validation and bucket/master updates,
in source order. -/
def process_ctrl_core (pool : Pool) (to_fqdn : Bool) (acc : NormAcc)
    (ctrl_name0 : String) (d_channels : List (String × ChDataIn))
    (d_synchronizer : SynchronizerField) (synchronization : AcqSynchType) :
    Except String NormAcc := do
  let external := name_is_external ctrl_name0
  if external then do
    let ctrl_name := ctrl_name0
    let sr ← resolve_synchronizer pool to_fqdn acc.synch_order acc.synch_store
      d_synchronizer
    let chanacc ← process_channels pool true ctrl_name to_fqdn none d_channels
      ⟨[], [], acc.user_elem_ids, acc.channel_acq_synch, false⟩
    let ctrl_item := chanacc.items.foldl ext_add_channel ⟨ctrl_name, [], [], [], false⟩
    let store2 :=
      match sr.created with
      | some (cn, _) => set_last_synch_enabled sr.store cn chanacc.ctrl_enabled
      | none => sr.store
    let ucc : UserConfigCtrl :=
      ⟨sr.snapshot_str, synchronization, chanacc.snapshot, none, none⟩
    Except.ok { acc with
      user_config_ctrls := dictInsert acc.user_config_ctrls ctrl_name ucc,
      synch_order := sr.order, synch_store := store2,
      other_ctrls := acc.other_ctrls ++ [ctrl_item],
      user_elem_ids := chanacc.user_elem_ids,
      channel_acq_synch := chanacc.channel_acq_synch }
  else do
    let ctrl_name := if to_fqdn then to_fqdn_name ctrl_name0 else ctrl_name0
    let pe ← get_element_by_full_name pool ctrl_name
    match pe with
    | PoolElem.chan _ => Except.error "AssertionError: element is not a controller"
    | PoolElem.tg _ _ => Except.error "AssertionError: element is not a controller"
    | PoolElem.ctrl is_timerable main_type => do
      let sr ← resolve_synchronizer pool to_fqdn acc.synch_order acc.synch_store
        d_synchronizer
      if is_timerable then do
        let acq_synch := AcqSynch.from_synch_type sr.is_software synchronization
        let ctrl_acq_synch2 := dictInsert acc.ctrl_acq_synch ctrl_name acq_synch
        let chanacc ← process_channels pool false ctrl_name to_fqdn (some acq_synch)
          d_channels ⟨[], [], acc.user_elem_ids, acc.channel_acq_synch, false⟩
        let base := chanacc.items.foldl ctrl_add_channel
          ⟨ctrl_name, sr.ctrl_ref, synchronization, [], [], [], false⟩
        let timer := update_master none base.channels_enabled
        let monitor := update_master none base.channels_enabled
        let timer_ch ← master_channel timer
        let monitor_ch ← master_channel monitor
        let ucc : UserConfigCtrl :=
          ⟨sr.snapshot_str, synchronization, chanacc.snapshot,
           some timer_ch.full_name, some monitor_ch.full_name⟩
        let store2 :=
          match sr.created with
          | some (cn, _) => set_last_synch_enabled sr.store cn chanacc.ctrl_enabled
          | none => sr.store
        let titem : TimerableCtrlConf := ⟨base, timer, monitor⟩
        let _ ← validate_timerable titem
        let acc2 := { acc with
          user_config_ctrls := dictInsert acc.user_config_ctrls ctrl_name ucc,
          synch_order := sr.order, synch_store := store2,
          user_elem_ids := chanacc.user_elem_ids,
          channel_acq_synch := chanacc.channel_acq_synch,
          ctrl_acq_synch := ctrl_acq_synch2,
          timerable_ctrls := buckets_append acc.timerable_ctrls acq_synch titem }
        match acq_synch with
        | AcqSynch.SoftwareTrigger =>
          Except.ok (update_masters_sw acc2 timer_ch monitor_ch)
        | AcqSynch.SoftwareGate =>
          Except.ok (update_masters_sw acc2 timer_ch monitor_ch)
        | AcqSynch.SoftwareStart =>
          Except.ok (update_masters_sw_start acc2 timer_ch monitor_ch)
        | _ => Except.ok acc2
      else do
        let chanacc ← process_channels pool false ctrl_name to_fqdn none d_channels
          ⟨[], [], acc.user_elem_ids, acc.channel_acq_synch, false⟩
        let base := chanacc.items.foldl ctrl_add_channel
          ⟨ctrl_name, sr.ctrl_ref, synchronization, [], [], [], false⟩
        let ucc : UserConfigCtrl :=
          ⟨sr.snapshot_str, synchronization, chanacc.snapshot, none, none⟩
        let store2 :=
          match sr.created with
          | some (cn, _) => set_last_synch_enabled sr.store cn chanacc.ctrl_enabled
          | none => sr.store
        let acc2 := { acc with
          user_config_ctrls := dictInsert acc.user_config_ctrls ctrl_name ucc,
          synch_order := sr.order, synch_store := store2,
          user_elem_ids := chanacc.user_elem_ids,
          channel_acq_synch := chanacc.channel_acq_synch,
          zerod_ctrls :=
            if main_type = ElementType.ZeroDExpChannel then acc.zerod_ctrls ++ [base]
            else acc.zerod_ctrls }
        Except.ok acc2

/-- One controller entry of the normalization loop: unwrap the legacy
`units` nesting, discard empty controllers, resolve the synchronization type
(its deprecation warning is reported for the whole entry) and run the entry
body. -/
def trigger_type_deprecation_msg : String :=
  "trigger_type configuration parameter is deprecated in favor of synchronization. Re-apply configuration in order to upgrade."

def process_ctrl (pool : Pool) (to_fqdn : Bool) (acc : NormAcc)
    (entry : String × CtrlData) : Except String NormAcc × Option String :=
  if (unwrap_units entry.2).channels.length = 0 then (Except.ok acc, none)
  else
    (process_ctrl_core pool to_fqdn acc entry.1 (unwrap_units entry.2).channels
      (unwrap_units entry.2).synchronizer
      (resolve_synchronization (unwrap_units entry.2)).1,
     if (resolve_synchronization (unwrap_units entry.2)).2 then
       some trigger_type_deprecation_msg
     else none)

/-- The normalization loop step: a raised error aborts the loop; warnings
accumulate. -/
def norm_step (pool : Pool) (to_fqdn : Bool)
    (st : Except String NormAcc × List String) (entry : String × CtrlData) :
    Except String NormAcc × List String :=
  match st.1 with
  | Except.error e => (Except.error e, st.2)
  | Except.ok acc =>
    let r := process_ctrl pool to_fqdn acc entry
    (r.1, st.2 ++ r.2.toList)

/-- The post-loop `update_state` pass over the synchronizer controllers (the
order list may name a controller twice; the update is idempotent). -/
def synch_ctrls_update_state (order : List String)
    (store : List (String × SynchCtrlConf)) : List (String × SynchCtrlConf) :=
  order.foldl
    (fun s cn =>
      match dictGet s cn with
      | none => s
      | some c => dictInsert s cn (synch_update_state c)) store

/-- The group-level timer fallback of the snapshot: the software master, the
software-start master, or the `timer` key of the input configuration (whose
absence raises a KeyError). -/
def fallback_timer (cfg : Cfg) (acc : NormAcc) : Except String String :=
  match acc.master_timer_sw with
  | some t => Except.ok t.full_name
  | none =>
    match acc.master_timer_sw_start with
    | some t => Except.ok t.full_name
    | none =>
      match cfg.timer with
      | some s => Except.ok s
      | none => Except.error "KeyError: timer"

/-- The group-level monitor fallback of the snapshot. -/
def fallback_monitor (cfg : Cfg) (acc : NormAcc) : Except String String :=
  match acc.master_monitor_sw with
  | some m => Except.ok m.full_name
  | none =>
    match acc.master_monitor_sw_start with
    | some m => Except.ok m.full_name
    | none =>
      match cfg.monitor with
      | some s => Except.ok s
      | none => Except.error "KeyError: monitor"

/-- Insertion sort for the membership indexes (`sorted(user_elem_ids.keys())`). -/
def insert_sorted (n : Nat) : List Nat → List Nat
  | [] => [n]
  | m :: rest => if n ≤ m then n :: m :: rest else m :: insert_sorted n rest

def sort_nat (l : List Nat) : List Nat := l.foldr insert_sorted []

/-- The final ordered membership-id list: the enabled channel ids by sorted
index, followed by the enabled synchronizer channel ids (iterating the
synchronizer controllers in append order, duplicates included). -/
def build_pushed (acc : NormAcc) (store : List (String × SynchCtrlConf)) :
    List UserElemId :=
  let indexes := sort_nat (acc.user_elem_ids.map Prod.fst)
  let ids := indexes.filterMap (fun i => dictGet acc.user_elem_ids i)
  acc.synch_order.foldl
    (fun l cn =>
      match dictGet store cn with
      | none => l
      | some c => l ++ c.channels_enabled.map (fun ch => UserElemId.pid ch.elem_id))
    ids

/-- The result of one `set_configuration_from_user` call: the (possibly
unchanged) internal model, the raised error if any, the membership ids pushed
to the parent group on success, and the deprecation warnings emitted. -/
structure SetConfigResult where
  state : MeasConfig
  error : Option String
  pushed : Option (List UserElemId)
  warnings : List String
deriving DecidableEq

/-- The post-loop stage: synchronizer `update_state`, the snapshot
timer/monitor fallbacks, the snapshot assembly, the commit of every internal
field, and the membership push.  Every failing branch leaves the previous
state untouched. -/
def scfu_finish (s : MeasConfig) (label description : String)
    (warnings : List String) (cfg : Cfg) (acc : NormAcc) : SetConfigResult :=
  match fallback_timer cfg acc with
  | Except.error e => { state := s, error := some e, pushed := none, warnings := warnings }
  | Except.ok timer_name =>
    match fallback_monitor cfg acc with
    | Except.error e => { state := s, error := some e, pushed := none, warnings := warnings }
    | Except.ok monitor_name =>
      let store2 := synch_ctrls_update_state acc.synch_order acc.synch_store
      let uc : UserConfig :=
        ⟨label, description, timer_name, monitor_name, acc.user_config_ctrls⟩
      { state :=
          { label := some label,
            description := some description,
            timerable_ctrls := acc.timerable_ctrls,
            zerod_ctrls := acc.zerod_ctrls,
            synch_ctrls_order := acc.synch_order,
            synch_ctrls_store := store2,
            other_ctrls := acc.other_ctrls,
            master_timer_sw := acc.master_timer_sw,
            master_monitor_sw := acc.master_monitor_sw,
            master_timer_sw_start := acc.master_timer_sw_start,
            master_monitor_sw_start := acc.master_monitor_sw_start,
            user_confg := some uc,
            channel_acq_synch := acc.channel_acq_synch,
            ctrl_acq_synch := acc.ctrl_acq_synch,
            changed := true },
        error := none,
        pushed := some (build_pushed acc store2),
        warnings := warnings }

/-- `MeasurementConfiguration.set_configuration_from_user`: reject an empty
member list, normalize every controller entry, and commit the new model
atomically at the end; any raised error leaves the previous model
untouched. -/
def set_configuration_from_user (pool : Pool) (parent_name : String)
    (user_elements : List String) (s : MeasConfig) (cfg : Cfg) (to_fqdn : Bool) :
    SetConfigResult :=
  if user_elements.length = 0 then
    { state := s, error := some "ValueError: the configuration has all the channels disabled",
      pushed := none, warnings := [] }
  else
    match cfg.controllers.foldl (norm_step pool to_fqdn) (Except.ok NormAcc.init, []) with
    | (Except.error e, ws) => { state := s, error := some e, pushed := none, warnings := ws }
    | (Except.ok acc, ws) =>
      scfu_finish s (cfg.label.getD parent_name)
        (cfg.description.getD "General purpose measurement configuration") ws cfg acc

/-- The modern equivalent of a (possibly legacy) controller entry: the
payload un-nested from `units`, with the resolved synchronization type under
the `synchronization` key and no `trigger_type` key. -/
def modernize_ctrl (cd : CtrlData) : CtrlData :=
  let d := unwrap_units cd
  { units := none,
    core := { d with synchronization := some (resolve_synchronization d).1,
                     trigger_type := none } }

/-- The modern equivalent of a whole configuration. -/
def modernize_cfg (cfg : Cfg) : Cfg :=
  { cfg with controllers := cfg.controllers.map (fun e => (e.1, modernize_ctrl e.2)) }

/-- A member list mixing pool channels and an external element, used for
concrete evaluations of the builder. -/
def ueW : List PGElement :=
  [⟨"expchan/a", ElementType.CTExpChannel, "ctrl/x"⟩,
   ⟨"tango://h:10000/sys/tg/1/attr", ElementType.External, ""⟩,
   ⟨"expchan/b", ElementType.CTExpChannel, "ctrl/x"⟩]

/-- A model state whose software-start timer and monitor slots hold distinct
channels. -/
def mc_swapped : MeasConfig :=
  { MeasConfig.init with
    master_timer_sw_start := some chA
    master_monitor_sw_start := some ch5 }

/-- A pool with one timerable controller owning one counter/timer channel. -/
def poolW : Pool :=
  { elems :=
      [("ctrl/ctctrl/1", PoolElem.ctrl true ElementType.CTExpChannel),
       ("expchan/ct/1",
        PoolElem.chan
          ⟨"ct1", 7, "tango://h:10000/expchan/ct/1/value", DataFormat.Scalar,
           DataType.Double, none, "ctrl/ctctrl/1"⟩)],
    externals := [] }

/-- A configuration whose only (timerable) controller has its only channel
disabled: the election finds no enabled channel and normalization raises. -/
def cfgW : Cfg :=
  { label := none, description := none,
    timer := some "expchan/ct/1", monitor := some "expchan/ct/1",
    controllers :=
      [("ctrl/ctctrl/1",
        { units := none,
          core :=
            { channels :=
                [("expchan/ct/1",
                  { emptyChDataIn with index := some 0, enabled := some false })],
              synchronizer := SynchronizerField.absent,
              synchronization := some AcqSynchType.Trigger,
              trigger_type := none } })] }

/-! ## Theorems -/

theorem latency_loop_step_timerable (a : Rat) (c : PoolCtrl)
    (h : c.is_timerable = true) : latency_loop_step a c = max a c.latency_time := by
  unfold latency_loop_step
  rw [h]
  show (if c.latency_time > a then c.latency_time else a) = max a c.latency_time
  rcases le_or_lt c.latency_time a with hle | hlt
  · rw [if_neg (not_lt.mpr hle), max_eq_left hle]
  · rw [if_pos hlt, max_eq_right hlt.le]

theorem latency_loop_step_not_timerable (a : Rat) (c : PoolCtrl)
    (h : c.is_timerable = false) : latency_loop_step a c = a := by
  unfold latency_loop_step
  rw [h]
  rfl

theorem latency_foldl_eq_foldl_max (l : List PoolCtrl) (a : Rat) :
    l.foldl latency_loop_step a
      = ((l.filter (fun c => c.is_timerable)).map (fun c => c.latency_time)).foldl max a := by
  induction l generalizing a with
  | nil => rfl
  | cons c l ih =>
    cases hb : c.is_timerable
    · simp [List.filter_cons, hb, latency_loop_step_not_timerable a c hb, ih]
    · simp [List.filter_cons, hb, latency_loop_step_timerable a c hb, ih]

theorem init_le_foldl_max (l : List Rat) (a : Rat) : a ≤ l.foldl max a := by
  induction l generalizing a with
  | nil => exact le_refl a
  | cons x l ih => exact le_trans (le_max_left a x) (ih (max a x))

/-- C6: `get_latency_time` returns the maximum, over all enabled timerable
controllers of the group, of the reported `latency_time` parameter (an unset
parameter is reported as 0), starting from 0 — so disabled controllers never
contribute and the result is never negative. -/
theorem C6_latency_time_is_max_over_enabled_timerable (g : List PoolCtrl) :
    get_latency_time g
      = ((g.filter (fun c => c.is_timerable && c.enabled)).map
          (fun c => c.latency_time)).foldl max 0
    ∧ 0 ≤ get_latency_time g := by
  have h1 : get_latency_time g
      = ((g.filter (fun c => c.is_timerable && c.enabled)).map
          (fun c => c.latency_time)).foldl max 0 := by
    unfold get_latency_time get_pool_controllers
    rw [latency_foldl_eq_foldl_max, List.filter_filter]
  exact ⟨h1, h1 ▸ init_le_foldl_max _ 0⟩

/-- C7: the integration-time accessor returns the single active group's
integration time when the synchronization description has exactly one active
group, raises the not-initialized error on zero groups, raises the
unsupported-configuration error on more than one group, and errors in no
other case. -/
theorem C7_integration_time_requires_single_group (groups : List Rat) :
    get_integration_time (active_time groups) =
      match groups with
      | [] => Except.error "The synchronization group has not been initialized"
      | [t] => Except.ok (some t)
      | _ => Except.error "There are more than one synchronization groups" := by
  match groups with
  | [] => rfl
  | [t] => rfl
  | a :: b :: l =>
    have h : get_integration_time (Sum.inr (a :: b :: l))
        = Except.error "There are more than one synchronization groups" := by
      show (if (a :: b :: l).length = 0 then
          (Except.error "The synchronization group has not been initialized" :
            Except String (Option Rat))
        else if (a :: b :: l).length > 1 then
          Except.error "There are more than one synchronization groups"
        else Except.ok none)
        = Except.error "There are more than one synchronization groups"
      rw [if_neg (by simp), if_pos (show (a :: b :: l).length > 1 by simp)]
    exact h

/-- C1: `prepare` resets `pending_starts` to the configured `nb_starts`;
every `start_acquisition` decrements `pending_starts` by exactly one (after
an implicit one-shot prepare when `pending_starts` is zero, which preserves
`nb_starts`); with `nb_starts = 3` and one `prepare`, three starts drive
`pending_starts` from 3 to 0 and a fourth start takes the implicit-prepare
path (an extra delegated prepare) while restoring `nb_starts = 3`. -/
theorem C1_multi_start_state_machine :
    (∀ s : MGroup, (prepare s).pending_starts = s.nb_starts)
    ∧ (∀ s : MGroup, (start_acquisition s).pending_starts =
        (if s.pending_starts = 0 then (1 : Int) else s.pending_starts) - 1)
    ∧ (∀ s : MGroup, (start_acquisition s).nb_starts = s.nb_starts)
    ∧ (∀ s : MGroup, (start_acquisition s).prepares =
        if s.pending_starts = 0 then s.prepares + 1 else s.prepares)
    ∧ ((prepare mgroup0).pending_starts = 3
      ∧ (start_acquisition (prepare mgroup0)).pending_starts = 2
      ∧ (start_acquisition (start_acquisition (prepare mgroup0))).pending_starts = 1
      ∧ (start_acquisition (start_acquisition (start_acquisition
          (prepare mgroup0)))).pending_starts = 0
      ∧ (start_acquisition (start_acquisition (start_acquisition
          (prepare mgroup0)))).prepares = 1
      ∧ (start_acquisition (start_acquisition (start_acquisition (start_acquisition
          (prepare mgroup0))))).pending_starts = 0
      ∧ (start_acquisition (start_acquisition (start_acquisition (start_acquisition
          (prepare mgroup0))))).nb_starts = 3
      ∧ (start_acquisition (start_acquisition (start_acquisition (start_acquisition
          (prepare mgroup0))))).prepares = 2) := by
  refine ⟨fun s => rfl, fun s => ?_, fun s => ?_, fun s => ?_, by decide⟩
  · by_cases h : s.pending_starts = 0 <;>
      by_cases h2 : s.simulation_mode <;>
        simp [start_acquisition, prepare, set_nb_starts, h, h2]
  · by_cases h : s.pending_starts = 0 <;>
      by_cases h2 : s.simulation_mode <;>
        simp [start_acquisition, prepare, set_nb_starts, h, h2]
  · by_cases h : s.pending_starts = 0 <;>
      by_cases h2 : s.simulation_mode <;>
        simp [start_acquisition, prepare, set_nb_starts, h, h2]

/-- C5 (counterexample): as stated the claim is false — `abort` does not
explicitly stop the software synchronizer: starting from a state where the
software synchronizer was never stopped, it is still not stopped after
`abort`. -/
theorem C5_counterexample_abort_does_not_stop_sw_synchronizer :
    (abort mgroup0).synch_soft_stopped = false := by decide

/-- C5 (amended): `stop` zeroes `pending_starts`, explicitly stops the
software synchronizer and forwards to the group-level stop; `abort` zeroes
`pending_starts` and forwards to the group-level abort without touching the
software synchronizer; both are idempotent on the group state. -/
theorem C5_stop_abort_cancellation :
    (∀ s : MGroup, (stop s).pending_starts = 0 ∧ (stop s).synch_soft_stopped = true
      ∧ (stop s).group_stopped = true)
    ∧ (∀ s : MGroup, (abort s).pending_starts = 0 ∧ (abort s).group_aborted = true
      ∧ (abort s).synch_soft_stopped = s.synch_soft_stopped)
    ∧ (∀ s : MGroup, stop (stop s) = stop s)
    ∧ (∀ s : MGroup, abort (abort s) = abort s) :=
  ⟨fun _ => ⟨rfl, rfl, rfl⟩, fun _ => ⟨rfl, rfl, rfl⟩, fun _ => rfl, fun _ => rfl⟩

/-- C10: `add_user_element` silently skips a TriggerGate that is already a
member (leaving the element list untouched, since the method returns before
reaching the base behaviour); a non-TriggerGate element, or an element not
yet present, is forwarded to the base group behaviour. -/
theorem C10_add_user_element_triggergate_idempotent (ue : List PGElement)
    (e : PGElement) (idx : Option Nat) :
    (e ∈ ue → e.elem_type = ElementType.TriggerGate →
      add_user_element ue e idx = AddUserElementResult.skipped)
    ∧ (e.elem_type ≠ ElementType.TriggerGate →
      add_user_element ue e idx = AddUserElementResult.delegated e idx)
    ∧ (e ∉ ue → add_user_element ue e idx = AddUserElementResult.delegated e idx) := by
  refine ⟨fun hm ht => ?_, fun ht => ?_, fun hm => ?_⟩
  · simp [add_user_element, hm, ht]
  · by_cases hm : e ∈ ue <;> simp [add_user_element, hm, ht]
  · simp [add_user_element, hm]

/-- C10 witness: concrete evaluations of the three cases. -/
theorem elect_step_inv (p : List ChannelConf) (acc : Option MasterRef × Option Nat)
    (a : ChannelConf) (h : ElectInv p acc) : ElectInv (p ++ [a]) (elect_step acc a) := by
  rcases h with ⟨hp, hacc⟩ | ⟨c, hacc, hmem, hmin, hlast⟩
  · subst hp; subst hacc
    right
    refine ⟨a, rfl, List.mem_singleton.mpr rfl, ?_, ?_⟩
    · intro ch hch
      rw [List.nil_append, List.mem_singleton] at hch
      subst hch
      exact le_refl _
    · rw [List.nil_append]
      simp [List.filter_cons]
  · subst hacc
    rcases Nat.lt_or_ge c.index a.index with hlt | hge
    · have hb : gt_idx a.index (some c.index) = true := by
        simp [gt_idx]
        exact hlt
      unfold elect_step
      rw [hb, if_pos rfl]
      right
      refine ⟨c, rfl, List.mem_append_left _ hmem, ?_, ?_⟩
      · intro ch hch
        rcases List.mem_append.mp hch with h1 | h2
        · exact hmin ch h1
        · rw [List.mem_singleton] at h2
          subst h2
          exact le_of_lt hlt
      · rw [List.filter_append]
        have hfa : List.filter (fun ch => ch.index == c.index) [a] = [] := by
          simp [List.filter_cons]
          exact Nat.ne_of_gt hlt
        rw [hfa, List.append_nil]
        exact hlast
    · have hb : gt_idx a.index (some c.index) = false := by
        simp [gt_idx]
        exact hge
      unfold elect_step
      rw [hb, if_neg Bool.false_ne_true]
      right
      refine ⟨a, rfl, List.mem_append_right _ (List.mem_singleton.mpr rfl), ?_, ?_⟩
      · intro ch hch
        rcases List.mem_append.mp hch with h1 | h2
        · exact le_trans hge (hmin ch h1)
        · rw [List.mem_singleton] at h2
          subst h2
          exact le_refl _
      · rw [List.filter_append]
        have hfa : List.filter (fun ch => ch.index == a.index) [a] = [a] := by
          simp [List.filter_cons]
        rw [hfa]
        exact List.getLast?_concat _

theorem elect_foldl_inv (l : List ChannelConf) :
    ∀ (p : List ChannelConf) (acc : Option MasterRef × Option Nat),
    ElectInv p acc → ElectInv (p ++ l) (l.foldl elect_step acc) := by
  induction l with
  | nil =>
    intro p acc h
    simpa using h
  | cons a l ih =>
    intro p acc h
    have h3 := ih (p ++ [a]) (elect_step acc a) (elect_step_inv p acc a h)
    simpa [List.append_assoc] using h3

/-- C2 (counterexample): as stated the claim is false — with two enabled
channels sharing the smallest index, `_update_master` retains the LAST
channel found in document order, not the first. -/
theorem C2_counterexample_tie_retains_last :
    update_master none [chA, chB] = some (MasterRef.chan chB) ∧ chB ≠ chA := by
  constructor
  · rfl
  · decide

/-- C2 (amended): with the timer (or monitor) role unset, master election
picks an enabled channel of minimal index, and when several enabled channels
share that smallest index the last one found in document/insertion order is
retained; with two enabled channels at indices 2 and 5 the elected master is
the channel at index 2 regardless of iteration order. -/
theorem C2_election_minimal_index_last_tie :
    (∀ (l : List ChannelConf) (c : ChannelConf),
      update_master none l = some (MasterRef.chan c) →
      c ∈ l ∧ (∀ ch ∈ l, c.index ≤ ch.index)
        ∧ (l.filter (fun ch => ch.index == c.index)).getLast? = some c)
    ∧ update_master none [chA, ch5] = some (MasterRef.chan chA)
    ∧ update_master none [ch5, chA] = some (MasterRef.chan chA) := by
  refine ⟨?_, rfl, rfl⟩
  intro l c hc
  have hinv := elect_foldl_inv l [] (none, none) (Or.inl ⟨rfl, rfl⟩)
  rw [List.nil_append] at hinv
  unfold update_master at hc
  rcases hinv with ⟨hp, hacc⟩ | ⟨d, hacc, hmem, hmin, hlast⟩
  · rw [hacc] at hc
    exact absurd hc (by simp)
  · rw [hacc] at hc
    have hdc : d = c := by
      simpa using hc
    subst hdc
    exact ⟨hmem, hmin, hlast⟩

/-- C2 witness: the amended election theorem applied at a concrete tied
input. -/
theorem C2_election_witness :
    chB ∈ [chA, chB]
    ∧ ([chA, chB].filter (fun ch => ch.index == chB.index)).getLast? = some chB := by
  have h := C2_election_minimal_index_last_tie.1 [chA, chB] chB rfl
  exact ⟨h.1, h.2.2⟩

theorem C10_add_user_element_witness :
    add_user_element [tgElem, ctElem] tgElem none = AddUserElementResult.skipped
    ∧ add_user_element [tgElem, ctElem] ctElem (some 1)
        = AddUserElementResult.delegated ctElem (some 1)
    ∧ add_user_element [] tgElem none = AddUserElementResult.delegated tgElem none :=
  ⟨(C10_add_user_element_triggergate_idempotent [tgElem, ctElem] tgElem none).1
      (by decide) (by decide),
   (C10_add_user_element_triggergate_idempotent [tgElem, ctElem] ctElem (some 1)).2.1
      (by decide),
   (C10_add_user_element_triggergate_idempotent [] tgElem none).2.2 (by decide)⟩

theorem dictGet_dictInsert_self {α : Type} (d : List (String × α)) (k : String) (v : α) :
    dictGet (dictInsert d k v) k = some v := by
  induction d with
  | nil => simp [dictInsert, dictGet]
  | cons p rest ih =>
    obtain ⟨k2, v2⟩ := p
    by_cases h : k2 = k
    · simp [dictInsert, dictGet, h]
    · simp [dictInsert, dictGet, h, ih]

theorem dictGet_dictInsert_ne {α : Type} (d : List (String × α)) (k : String) (v : α)
    (k2 : String) (h : k ≠ k2) : dictGet (dictInsert d k v) k2 = dictGet d k2 := by
  induction d with
  | nil => simp [dictInsert, dictGet, h]
  | cons p rest ih =>
    obtain ⟨k3, v3⟩ := p
    by_cases h3 : k3 = k
    · subst h3
      simp [dictInsert, dictGet, h]
    · by_cases h4 : k3 = k2 <;> simp [dictInsert, dictGet, h3, h4, ih, Ne.symm h]

theorem bmc_step_snd_external (acc : List (String × BMCtrlData) × List (Nat × PGElement))
    (n : Nat) (a : PGElement) (h : a.elem_type = ElementType.External) :
    (bmc_step acc (n, a)).2 = acc.2 ++ [(n, a)] := by
  simp [bmc_step, h]

theorem bmc_step_snd_nonexternal (acc : List (String × BMCtrlData) × List (Nat × PGElement))
    (n : Nat) (a : PGElement) (h : ¬ a.elem_type = ElementType.External) :
    (bmc_step acc (n, a)).2 = acc.2 := by
  simp [bmc_step, h]

theorem bmc_step_fst_external (acc : List (String × BMCtrlData) × List (Nat × PGElement))
    (n : Nat) (a : PGElement) (h : a.elem_type = ElementType.External) :
    (bmc_step acc (n, a)).1 = acc.1 := by
  simp [bmc_step, h]

theorem bmc_step_fst_nonexternal (acc : List (String × BMCtrlData) × List (Nat × PGElement))
    (n : Nat) (a : PGElement) (h : ¬ a.elem_type = ElementType.External) :
    (bmc_step acc (n, a)).1
      = dictInsert acc.1 a.ctrl_full_name
          ⟨dictInsert (chans_of acc.1 a.ctrl_full_name) a.full_name n⟩ := by
  simp [bmc_step, h]

theorem bmc_fold_snd (l : List PGElement) :
    ∀ (n : Nat) (acc : List (String × BMCtrlData) × List (Nat × PGElement)),
    ((List.enumFrom n l).foldl bmc_step acc).2 = acc.2 ++ ext_list n l := by
  induction l with
  | nil =>
    intro n acc
    simp [ext_list]
  | cons a l ih =>
    intro n acc
    rw [show List.enumFrom n (a :: l) = (n, a) :: List.enumFrom (n + 1) l from rfl,
      List.foldl_cons, ih (n + 1) (bmc_step acc (n, a))]
    by_cases h : a.elem_type = ElementType.External
    · rw [bmc_step_snd_external acc n a h]
      simp [ext_list, h, List.append_assoc]
    · rw [bmc_step_snd_nonexternal acc n a h]
      simp [ext_list, h]

theorem bmc_fold_fst_preserve (l : List PGElement) :
    ∀ (n : Nat) (acc : List (String × BMCtrlData) × List (Nat × PGElement))
      (cn ch : String), (∀ e ∈ l, e.full_name ≠ ch) →
    ctrl_chan_index ((List.enumFrom n l).foldl bmc_step acc).1 cn ch
      = ctrl_chan_index acc.1 cn ch := by
  induction l with
  | nil =>
    intro n acc cn ch _
    rfl
  | cons a l ih =>
    intro n acc cn ch hch
    rw [show List.enumFrom n (a :: l) = (n, a) :: List.enumFrom (n + 1) l from rfl,
      List.foldl_cons,
      ih (n + 1) (bmc_step acc (n, a)) cn ch (fun e he => hch e (List.mem_cons_of_mem a he))]
    by_cases h : a.elem_type = ElementType.External
    · rw [bmc_step_fst_external acc n a h]
    · rw [bmc_step_fst_nonexternal acc n a h]
      have hne : a.full_name ≠ ch := hch a (List.mem_cons_self a l)
      by_cases hcn : a.ctrl_full_name = cn
      · subst hcn
        unfold ctrl_chan_index
        rw [dictGet_dictInsert_self]
        show dictGet (dictInsert (chans_of acc.1 a.ctrl_full_name) a.full_name n) ch
          = (match dictGet acc.1 a.ctrl_full_name with
             | none => none
             | some cd => dictGet cd.channels ch)
        rw [dictGet_dictInsert_ne _ _ _ _ hne]
        unfold chans_of
        cases dictGet acc.1 a.ctrl_full_name with
        | none => rfl
        | some cd => rfl
      · unfold ctrl_chan_index
        rw [dictGet_dictInsert_ne _ _ _ _ hcn]

theorem bmc_fold_nonexternal (l : List PGElement) :
    ∀ (n : Nat) (acc : List (String × BMCtrlData) × List (Nat × PGElement))
      (i : Nat) (h : i < l.length),
    (l.map (fun e => e.full_name)).Nodup →
    (l.get ⟨i, h⟩).elem_type ≠ ElementType.External →
    ctrl_chan_index ((List.enumFrom n l).foldl bmc_step acc).1
      (l.get ⟨i, h⟩).ctrl_full_name (l.get ⟨i, h⟩).full_name = some (n + i) := by
  induction l with
  | nil =>
    intro n acc i h
    exact absurd h (Nat.not_lt_zero i)
  | cons a l ih =>
    intro n acc i h hnd hext
    rw [show List.enumFrom n (a :: l) = (n, a) :: List.enumFrom (n + 1) l from rfl,
      List.foldl_cons]
    cases i with
    | zero =>
      have hexta : ¬ a.elem_type = ElementType.External := hext
      have hnotin : ∀ e ∈ l, e.full_name ≠ a.full_name := by
        intro e he heq
        have hh : a.full_name ∉ l.map (fun e => e.full_name) :=
          (List.nodup_cons.mp (by simpa using hnd)).1
        exact hh (heq ▸ List.mem_map_of_mem _ he)
      have hpres := bmc_fold_fst_preserve l (n + 1) (bmc_step acc (n, a))
        a.ctrl_full_name a.full_name hnotin
      show ctrl_chan_index _ a.ctrl_full_name a.full_name = some (n + 0)
      rw [hpres, bmc_step_fst_nonexternal acc n a hexta]
      unfold ctrl_chan_index
      rw [dictGet_dictInsert_self]
      show dictGet (dictInsert (chans_of acc.1 a.ctrl_full_name) a.full_name n) a.full_name
        = some (n + 0)
      rw [dictGet_dictInsert_self]
      rfl
    | succ j =>
      have hj : j < l.length := Nat.lt_of_succ_lt_succ h
      have hnd2 : (l.map (fun e => e.full_name)).Nodup :=
        (List.nodup_cons.mp (by simpa using hnd)).2
      have hrec := ih (n + 1) (bmc_step acc (n, a)) j hj hnd2 hext
      have harith : n + 1 + j = n + (j + 1) := by omega
      rw [← harith]
      exact hrec

theorem ext_list_mem (l : List PGElement) :
    ∀ (n i : Nat) (h : i < l.length),
    (l.get ⟨i, h⟩).elem_type = ElementType.External →
    (n + i, l.get ⟨i, h⟩) ∈ ext_list n l := by
  induction l with
  | nil =>
    intro n i h
    exact absurd h (Nat.not_lt_zero i)
  | cons a l ih =>
    intro n i h hext
    cases i with
    | zero =>
      have ha : a.elem_type = ElementType.External := hext
      have hext_eq : ext_list n (a :: l) = [(n, a)] ++ ext_list (n + 1) l := by
        simp [ext_list, ha]
      rw [hext_eq]
      exact List.mem_append_left _ (List.mem_singleton.mpr rfl)
    | succ j =>
      have hj : j < l.length := Nat.lt_of_succ_lt_succ h
      have hx : (l.get ⟨j, hj⟩).elem_type = ElementType.External := hext
      have hm := ih (n + 1) j hj hx
      have harith : n + (j + 1) = n + 1 + j := by omega
      rw [harith]
      show ((n + 1 + j, l.get ⟨j, hj⟩) ∈
        (if a.elem_type = ElementType.External then [(n, a)] else []) ++ ext_list (n + 1) l)
      exact List.mem_append_right _ hm

theorem ext_list_names_sublist (l : List PGElement) :
    ∀ n : Nat, List.Sublist ((ext_list n l).map (fun p => p.2.full_name))
      (l.map (fun e => e.full_name)) := by
  induction l with
  | nil =>
    intro n
    simp [ext_list]
  | cons a l ih =>
    intro n
    by_cases h : a.elem_type = ElementType.External
    · have hx : ext_list n (a :: l) = [(n, a)] ++ ext_list (n + 1) l := by
        simp [ext_list, h]
      rw [hx]
      simp only [List.map_append, List.map_cons, List.map_nil, List.singleton_append]
      exact List.Sublist.cons₂ _ (ih (n + 1))
    · have hx : ext_list n (a :: l) = ext_list (n + 1) l := by
        simp [ext_list, h]
      rw [hx]
      simp only [List.map_cons]
      exact List.Sublist.cons _ (ih (n + 1))

theorem tango_fold_preserve (xs : List (Nat × PGElement)) :
    ∀ (ch0 : List (String × Nat)) (nm : String),
    (∀ p ∈ xs, p.2.full_name ≠ nm) →
    dictGet (xs.foldl (fun channels p => dictInsert channels p.2.full_name p.1) ch0) nm
      = dictGet ch0 nm := by
  induction xs with
  | nil =>
    intro ch0 nm _
    rfl
  | cons p xs ih =>
    intro ch0 nm h
    rw [List.foldl_cons, ih _ nm (fun q hq => h q (List.mem_cons_of_mem p hq)),
      dictGet_dictInsert_ne _ _ _ _ (h p (List.mem_cons_self p xs))]

theorem tango_fold_get (xs : List (Nat × PGElement)) :
    ∀ (ch0 : List (String × Nat)) (i : Nat) (e : PGElement),
    (i, e) ∈ xs → (xs.map (fun p => p.2.full_name)).Nodup →
    dictGet (xs.foldl (fun channels p => dictInsert channels p.2.full_name p.1) ch0)
      e.full_name = some i := by
  induction xs with
  | nil =>
    intro ch0 i e hm
    exact absurd hm (List.not_mem_nil _)
  | cons p xs ih =>
    intro ch0 i e hm hnd
    rw [List.foldl_cons]
    rcases List.mem_cons.mp hm with heq | hm2
    · have hni : ∀ q ∈ xs, q.2.full_name ≠ e.full_name := by
        intro q hq heq2
        have hh : p.2.full_name ∉ xs.map (fun p => p.2.full_name) :=
          (List.nodup_cons.mp (by simpa using hnd)).1
        rw [← heq] at hh
        exact hh (heq2 ▸ List.mem_map_of_mem _ hq)
      rw [tango_fold_preserve xs _ _ hni, ← heq, dictGet_dictInsert_self]
    · exact ih _ i e hm2 (List.nodup_cons.mp (by simpa using hnd)).2

/-- C8: `build_measurement_configuration` is a pure function assigning to
each non-external member, grouped under its owning controller's full name,
an index equal to the member's position in the input list; external members
are grouped under the synthetic `__tango__` entry with their original
positions preserved. -/
theorem C8_build_measurement_configuration_indexes (ue : List PGElement)
    (hnd : (ue.map (fun e => e.full_name)).Nodup)
    (htg : ∀ e ∈ ue, e.ctrl_full_name ≠ "__tango__")
    (i : Nat) (h : i < ue.length) :
    ((ue.get ⟨i, h⟩).elem_type ≠ ElementType.External →
      ctrl_chan_index (build_measurement_configuration ue).controllers
        (ue.get ⟨i, h⟩).ctrl_full_name (ue.get ⟨i, h⟩).full_name = some i)
    ∧ ((ue.get ⟨i, h⟩).elem_type = ElementType.External →
      ctrl_chan_index (build_measurement_configuration ue).controllers
        "__tango__" (ue.get ⟨i, h⟩).full_name = some i) := by
  have hmain : ∀ hx : (ue.get ⟨i, h⟩).elem_type ≠ ElementType.External,
      ctrl_chan_index ((List.enumFrom 0 ue).foldl bmc_step ([], [])).1
        (ue.get ⟨i, h⟩).ctrl_full_name (ue.get ⟨i, h⟩).full_name = some i := by
    intro hx
    have hr := bmc_fold_nonexternal ue 0 ([], []) i h hnd hx
    simpa using hr
  have hsnd : ((List.enumFrom 0 ue).foldl bmc_step ([], [])).2 = ext_list 0 ue := by
    have hr := bmc_fold_snd ue 0 ([], [])
    simpa using hr
  constructor
  · intro hx
    have htgne : ("__tango__" : String) ≠ (ue.get ⟨i, h⟩).ctrl_full_name :=
      Ne.symm (htg _ (List.get_mem ue i h))
    unfold build_measurement_configuration
    by_cases hlen : 0 < ((List.enumFrom 0 ue).foldl bmc_step ([], [])).2.length
    · simp only [List.enum]
      rw [if_pos hlen]
      show ctrl_chan_index
        (dictInsert ((List.enumFrom 0 ue).foldl bmc_step ([], [])).1 "__tango__" _)
        (ue.get ⟨i, h⟩).ctrl_full_name (ue.get ⟨i, h⟩).full_name = some i
      unfold ctrl_chan_index
      rw [dictGet_dictInsert_ne _ _ _ _ htgne]
      exact hmain hx
    · simp only [List.enum]
      rw [if_neg hlen]
      exact hmain hx
  · intro hx
    have hmem : (i, ue.get ⟨i, h⟩) ∈ ((List.enumFrom 0 ue).foldl bmc_step ([], [])).2 := by
      rw [hsnd]
      have hr := ext_list_mem ue 0 i h hx
      simpa using hr
    have hlen : 0 < ((List.enumFrom 0 ue).foldl bmc_step ([], [])).2.length :=
      List.length_pos.mpr (List.ne_nil_of_mem hmem)
    have hndx : (((List.enumFrom 0 ue).foldl bmc_step ([], [])).2.map
        (fun p => p.2.full_name)).Nodup := by
      rw [hsnd]
      exact List.Nodup.sublist (ext_list_names_sublist ue 0) hnd
    unfold build_measurement_configuration
    simp only [List.enum]
    rw [if_pos hlen]
    show ctrl_chan_index
      (dictInsert ((List.enumFrom 0 ue).foldl bmc_step ([], [])).1 "__tango__"
        ⟨tango_channels ((List.enumFrom 0 ue).foldl bmc_step ([], [])).2⟩)
      "__tango__" (ue.get ⟨i, h⟩).full_name = some i
    unfold ctrl_chan_index
    rw [dictGet_dictInsert_self]
    exact tango_fold_get _ [] i _ hmem hndx

/-- C8 witness: the builder theorem applied at a concrete member list with
two pool channels and one external element. -/
theorem C8_build_measurement_configuration_witness :
    ctrl_chan_index (build_measurement_configuration ueW).controllers
      "ctrl/x" "expchan/a" = some 0
    ∧ ctrl_chan_index (build_measurement_configuration ueW).controllers
      "__tango__" "tango://h:10000/sys/tg/1/attr" = some 1
    ∧ ctrl_chan_index (build_measurement_configuration ueW).controllers
      "ctrl/x" "expchan/b" = some 2 :=
  ⟨(C8_build_measurement_configuration_indexes ueW (by decide) (by decide) 0
      (by decide)).1 (by decide),
   (C8_build_measurement_configuration_indexes ueW (by decide) (by decide) 1
      (by decide)).2 (by decide),
   (C8_build_measurement_configuration_indexes ueW (by decide) (by decide) 2
      (by decide)).1 (by decide)⟩

theorem scfu_finish_error_state (s : MeasConfig) (label description : String)
    (ws : List String) (cfg : Cfg) (acc : NormAcc) (e : String)
    (h : (scfu_finish s label description ws cfg acc).error = some e) :
    (scfu_finish s label description ws cfg acc).state = s := by
  unfold scfu_finish at h ⊢
  rcases ht : fallback_timer cfg acc with e1 | tn
  · rfl
  · rw [ht] at h
    rcases hm : fallback_monitor cfg acc with e2 | mn
    · rfl
    · rw [hm] at h
      simp at h

/-- C3: on every input on which `set_configuration_from_user` raises, no
field of the internal model is modified: the previously committed
configuration is returned untouched. -/
theorem C3_normalization_error_leaves_state_untouched (pool : Pool)
    (parent_name : String) (ue : List String) (s : MeasConfig) (cfg : Cfg)
    (tf : Bool) (e : String)
    (h : (set_configuration_from_user pool parent_name ue s cfg tf).error = some e) :
    (set_configuration_from_user pool parent_name ue s cfg tf).state = s := by
  unfold set_configuration_from_user at h ⊢
  by_cases h1 : ue.length = 0
  · simp [h1]
  · rw [if_neg h1] at h ⊢
    rcases hr : cfg.controllers.foldl (norm_step pool tf) (Except.ok NormAcc.init, [])
      with ⟨r1, ws⟩
    rw [hr] at h
    cases r1 with
    | error e2 => rfl
    | ok acc =>
      exact scfu_finish_error_state s (cfg.label.getD parent_name)
        (cfg.description.getD "General purpose measurement configuration") ws cfg acc e h

/-- C3 witness: a configuration whose only timerable controller has all
channels disabled raises (the timer election finds no enabled channel) and
the state is left untouched. -/
theorem C3_normalization_error_witness :
    (set_configuration_from_user poolW "mg1" ["expchan/ct/1"] MeasConfig.init
      cfgW true).error = some "AttributeError: NoneType has no attribute full_name"
    ∧ (set_configuration_from_user poolW "mg1" ["expchan/ct/1"] MeasConfig.init
      cfgW true).state = MeasConfig.init :=
  ⟨by decide,
   C3_normalization_error_leaves_state_untouched poolW "mg1" ["expchan/ct/1"]
     MeasConfig.init cfgW true "AttributeError: NoneType has no attribute full_name"
     (by decide)⟩

/-- C4: evaluating the software-start master getters on a state whose two
software-start slots hold distinct channels shows each getter returns the
OTHER slot: `get_master_timer_software_start` returns the monitor slot and
`get_master_monitor_software_start` the timer slot, contradicting their own
docstrings. -/
theorem C4_master_software_start_getters_swapped :
    get_master_timer_software_start mc_swapped = mc_swapped.master_monitor_sw_start
    ∧ get_master_monitor_software_start mc_swapped = mc_swapped.master_timer_sw_start
    ∧ get_master_timer_software_start mc_swapped ≠ mc_swapped.master_timer_sw_start
    ∧ get_master_monitor_software_start mc_swapped ≠ mc_swapped.master_monitor_sw_start := by
  exact ⟨rfl, rfl, by decide, by decide⟩

theorem process_ctrl_modernize (pool : Pool) (tf : Bool) (acc : NormAcc)
    (nm : String) (cd : CtrlData) :
    process_ctrl pool tf acc (nm, modernize_ctrl cd)
      = ((process_ctrl pool tf acc (nm, cd)).1, none) := by
  have h1 : unwrap_units (modernize_ctrl cd)
      = { unwrap_units cd with
          synchronization := some (resolve_synchronization (unwrap_units cd)).1
          trigger_type := none } := rfl
  unfold process_ctrl
  rw [h1]
  by_cases hc : (unwrap_units cd).channels.length = 0
  · simp [hc]
  · simp [hc, resolve_synchronization]

theorem norm_fold_fst_ws (pool : Pool) (tf : Bool) (ctrls : List (String × CtrlData)) :
    ∀ (x : Except String NormAcc) (ws ws2 : List String),
    (ctrls.foldl (norm_step pool tf) (x, ws)).1
      = (ctrls.foldl (norm_step pool tf) (x, ws2)).1 := by
  induction ctrls with
  | nil =>
    intro x ws ws2
    rfl
  | cons c ctrls ih =>
    intro x ws ws2
    rw [List.foldl_cons, List.foldl_cons]
    cases x with
    | error e => exact ih (Except.error e) ws ws2
    | ok acc =>
      exact ih (process_ctrl pool tf acc c).1
        (ws ++ (process_ctrl pool tf acc c).2.toList)
        (ws2 ++ (process_ctrl pool tf acc c).2.toList)

theorem norm_fold_modernize (pool : Pool) (tf : Bool)
    (ctrls : List (String × CtrlData)) :
    ∀ (x : Except String NormAcc) (ws : List String),
    (ctrls.map (fun e => (e.1, modernize_ctrl e.2))).foldl (norm_step pool tf) (x, ws)
      = ((ctrls.foldl (norm_step pool tf) (x, ws)).1, ws) := by
  induction ctrls with
  | nil =>
    intro x ws
    rfl
  | cons c ctrls ih =>
    intro x ws
    rw [List.map_cons, List.foldl_cons, List.foldl_cons]
    cases x with
    | error e =>
      have hstep : norm_step pool tf (Except.error e, ws) c = (Except.error e, ws) := rfl
      have hstep2 : norm_step pool tf (Except.error e, ws) (c.1, modernize_ctrl c.2)
          = (Except.error e, ws) := rfl
      rw [hstep, hstep2, ih (Except.error e) ws]
    | ok acc =>
      have hstep2 : norm_step pool tf (Except.ok acc, ws) (c.1, modernize_ctrl c.2)
          = ((process_ctrl pool tf acc c).1, ws) := by
        show ((process_ctrl pool tf acc (c.1, modernize_ctrl c.2)).1,
          ws ++ (process_ctrl pool tf acc (c.1, modernize_ctrl c.2)).2.toList)
          = ((process_ctrl pool tf acc c).1, ws)
        rw [process_ctrl_modernize pool tf acc c.1 c.2]
        simp
      rw [hstep2, ih (process_ctrl pool tf acc c).1 ws]
      have hfst := norm_fold_fst_ws pool tf ctrls (process_ctrl pool tf acc c).1 ws
        (ws ++ (process_ctrl pool tf acc c).2.toList)
      exact congrArg (fun z => (z, ws)) hfst

theorem scfu_finish_congr (s : MeasConfig) (label description : String)
    (ws ws2 : List String) (cfg cfg2 : Cfg) (acc : NormAcc)
    (ht : fallback_timer cfg2 acc = fallback_timer cfg acc)
    (hm : fallback_monitor cfg2 acc = fallback_monitor cfg acc) :
    (scfu_finish s label description ws2 cfg2 acc).state
        = (scfu_finish s label description ws cfg acc).state
    ∧ (scfu_finish s label description ws2 cfg2 acc).error
        = (scfu_finish s label description ws cfg acc).error
    ∧ (scfu_finish s label description ws2 cfg2 acc).pushed
        = (scfu_finish s label description ws cfg acc).pushed
    ∧ (scfu_finish s label description ws2 cfg2 acc).warnings = ws2 := by
  unfold scfu_finish
  rw [ht, hm]
  rcases fallback_timer cfg acc with e1 | tn
  · exact ⟨rfl, rfl, rfl, rfl⟩
  · rcases fallback_monitor cfg acc with e2 | mn
    · exact ⟨rfl, rfl, rfl, rfl⟩
    · exact ⟨rfl, rfl, rfl, rfl⟩

/-- C9: a legacy configuration (channels nested under `units`/`0`, the
deprecated `trigger_type` key) normalizes to exactly the same internal
model, error behaviour and pushed membership ids as its modern equivalent
(payload at controller level, resolved `synchronization` key); they differ
only in the emitted deprecation warnings, and the modern run emits none.
The user-configuration snapshot type has no `units` nesting at all. -/
theorem C9_legacy_configuration_normalizes_like_modern (pool : Pool)
    (parent : String) (ue : List String) (s : MeasConfig) (cfg : Cfg) (tf : Bool) :
    (set_configuration_from_user pool parent ue s (modernize_cfg cfg) tf).state
      = (set_configuration_from_user pool parent ue s cfg tf).state
    ∧ (set_configuration_from_user pool parent ue s (modernize_cfg cfg) tf).error
      = (set_configuration_from_user pool parent ue s cfg tf).error
    ∧ (set_configuration_from_user pool parent ue s (modernize_cfg cfg) tf).pushed
      = (set_configuration_from_user pool parent ue s cfg tf).pushed
    ∧ (set_configuration_from_user pool parent ue s (modernize_cfg cfg) tf).warnings = [] := by
  unfold set_configuration_from_user
  by_cases h1 : ue.length = 0
  · simp [h1]
  · rw [if_neg h1, if_neg h1]
    have hctrl : (modernize_cfg cfg).controllers
        = cfg.controllers.map (fun e => (e.1, modernize_ctrl e.2)) := rfl
    rw [hctrl, norm_fold_modernize pool tf cfg.controllers (Except.ok NormAcc.init) []]
    rcases hr : cfg.controllers.foldl (norm_step pool tf) (Except.ok NormAcc.init, [])
      with ⟨r1, ws⟩
    cases r1 with
    | error e => exact ⟨rfl, rfl, rfl, rfl⟩
    | ok acc =>
      have hlab : (modernize_cfg cfg).label.getD parent = cfg.label.getD parent := rfl
      have hdesc : (modernize_cfg cfg).description.getD
          "General purpose measurement configuration"
          = cfg.description.getD "General purpose measurement configuration" := rfl
      have ht : fallback_timer (modernize_cfg cfg) acc = fallback_timer cfg acc := rfl
      have hm : fallback_monitor (modernize_cfg cfg) acc = fallback_monitor cfg acc := rfl
      have hc := scfu_finish_congr s (cfg.label.getD parent)
        (cfg.description.getD "General purpose measurement configuration")
        ws [] cfg (modernize_cfg cfg) acc ht hm
      exact hc

end Sardana
